import Mathlib

/-!
# Verification of the `flutter-interview-prep` repository specification

The repository is a static Docusaurus documentation site.  Its own code
consists of three kinds of artifacts, each of which we embed shallowly:

* **Site configuration descriptors** (`docusaurus.config.ts` and the two
  earlier versions `unnamed/part_004`, `unnamed/part_005`): declarative
  key-value objects.  We model them as a JSON-like `ConfigValue` tree.
  The current `docusaurus.config.ts` reads `process.env.NODE_ENV` (for
  `baseUrl`) and `new Date().getFullYear()` (for the footer copyright),
  so its embedding is a function of those two inputs; likewise
  `part_005`'s copyright depends on the current year.
* **Sidebar navigation descriptors** (`sidebars.ts` and `unnamed/part_003`):
  lists of entries, each either a `doc` reference or a `category` with a
  label and an ordered list of document identifiers.
* **Content files**: Markdown documents, some of which begin with a YAML
  front-matter block.  We record, for every content file in the corpus,
  the front-matter blocks it declares as ordered field/value lists.
-/

/-- A JSON-like value as written in the TypeScript configuration objects.
Numbers are kept as the literal digits of the source (`num m e` denotes
`m / 10^e`, so `0.5` is `num 5 1`); `funcLeaf` marks a position where the
source stores a function value (the `editUrl` callback of `part_005`,
embedded separately as `part005EditUrl`). -/
inductive ConfigValue where
  | str (s : String)
  | num (m : Int) (e : Nat)
  | bool (b : Bool)
  | funcLeaf
  | arr (vs : List ConfigValue)
  | obj (kvs : List (String × ConfigValue))

/-- The field names of a literal object layer, in source order. -/
def keyList (kvs : List (String × ConfigValue)) : List String :=
  kvs.map Prod.fst

/-- `true` iff the list of keys has no duplicate. -/
def distinctKeys : List String → Bool
  | [] => true
  | k :: ks => !(ks.contains k) && distinctKeys ks

mutual

/-- No object layer anywhere in the value declares the same key twice. -/
def ConfigValue.noDupKeys : ConfigValue → Bool
  | .str _ => true
  | .num _ _ => true
  | .bool _ => true
  | .funcLeaf => true
  | .arr vs => noDupKeysList vs
  | .obj kvs => distinctKeys (keyList kvs) && noDupKeysEntries kvs

/-- `noDupKeys` over every element of an array value. -/
def noDupKeysList : List ConfigValue → Bool
  | [] => true
  | v :: vs => v.noDupKeys && noDupKeysList vs

/-- `noDupKeys` over every value of an object layer. -/
def noDupKeysEntries : List (String × ConfigValue) → Bool
  | [] => true
  | kv :: kvs => kv.snd.noDupKeys && noDupKeysEntries kvs

end

/-- Field access on an object value (first binding wins, as in JS). -/
def ConfigValue.lookup : ConfigValue → String → Option ConfigValue
  | .obj kvs, k => (kvs.find? (fun kv => kv.fst == k)).map Prod.snd
  | _, _ => none

/-! ## `src/utils/links.ts` -/

def linkedinLink : String := "https://www.linkedin.com/in/narayann/"
def githubLink : String := "https://github.com/narayann7"
def gmailLink : String := "mailto:social@narayann.dev"
def twitterLink : String := "https://twitter.com/narayanndev"
def stackoverflowLink : String := "https://stackoverflow.com/users/14385914/narayann"
def portfolioLink : String := "https://narayann.dev"
def hostedCoreURL : String := "https://flutterprep.narayann.dev"

/-- The object exported by `src/utils/links.ts`, as name/value pairs. -/
def links : List (String × String) :=
  [("linkedinLink", linkedinLink),
   ("githubLink", githubLink),
   ("gmailLink", gmailLink),
   ("twitterLink", twitterLink),
   ("stackoverflowLink", stackoverflowLink),
   ("portfolioLink", portfolioLink),
   ("hostedCoreURL", hostedCoreURL)]

/-! ## `docusaurus.config.ts` (current site configuration)

The file reads `process.env.NODE_ENV` into `isDev` and the current year
into the footer copyright, so its embedding is a function of the two. -/

/-- `const isDev = process.env.NODE_ENV === 'development';` -/
def isDev (nodeEnv : String) : Bool := nodeEnv == "development"

/-- `baseUrl: isDev ? '/' : '/flutter-interview-prep/'` -/
def mainBaseUrl (nodeEnv : String) : String :=
  if isDev nodeEnv then "/" else "/flutter-interview-prep/"

/-- The footer copyright template string of `docusaurus.config.ts`,
interpolating `new Date().getFullYear()`. -/
def mainCopyright (year : Nat) : String :=
  "Copyright © " ++ toString year ++ " Narayann. Built with Docusaurus."

/-- `themeConfig.navbar.items` of `docusaurus.config.ts`. -/
def mainNavbarItems : List ConfigValue :=
  [.obj [("href", .str "https://github.com/narayann7/flutter-interview-prep"),
         ("label", .str "GitHub"),
         ("position", .str "right")]]

/-- Items of the `Docs` group of `themeConfig.footer.links`. -/
def mainFooterDocsItems : List ConfigValue :=
  [.obj [("label", .str "Start"), ("to", .str "/docs/intro")]]

/-- Items of the `Community` group of `themeConfig.footer.links`. -/
def mainFooterCommunityItems : List ConfigValue :=
  [.obj [("label", .str "Stack Overflow"),
         ("href", .str "https://stackoverflow.com/questions/tagged/flutter")],
   .obj [("label", .str "Twitter"),
         ("href", .str "https://x.com/docusaurus")]]

/-- The `presets` entry shared verbatim by `docusaurus.config.ts` and
`part_004`: `[['classic', { docs: ..., blog: false, theme: ..., sitemap: ... }]]`. -/
def mainPresets : ConfigValue :=
  .arr [.arr [.str "classic",
    .obj [("docs", .obj [("sidebarPath", .str "./sidebars.ts"),
                         ("editUrl", .str "https://github.com/narayann7/flutter-interview-prep/edit/main/")]),
          ("blog", .bool false),
          ("theme", .obj [("customCss", .str "./src/css/custom.css")]),
          ("sitemap", .obj [("changefreq", .str "weekly"),
                            ("priority", .num 5 1),
                            ("filename", .str "sitemap.xml")])]]]

/-- The configuration object of `docusaurus.config.ts`, as a function of
`process.env.NODE_ENV` and the current year. -/
def mainConfig (nodeEnv : String) (year : Nat) : ConfigValue :=
  .obj [("title", .str "Flutter Interview Prep"),
        ("tagline", .str "Curated Flutter interview questions and answers."),
        ("favicon", .str "img/favicon.ico"),
        ("future", .obj [("v4", .bool true)]),
        ("url", .str "https://narayann.dev"),
        ("baseUrl", .str (mainBaseUrl nodeEnv)),
        ("organizationName", .str "narayann7"),
        ("projectName", .str "flutter-interview-prep"),
        ("deploymentBranch", .str "gh-pages"),
        ("trailingSlash", .bool false),
        ("onBrokenLinks", .str "warn"),
        ("onBrokenMarkdownLinks", .str "warn"),
        ("i18n", .obj [("defaultLocale", .str "en"),
                       ("locales", .arr [.str "en"])]),
        ("presets", mainPresets),
        ("themeConfig", .obj
          [("image", .str "img/social-card.jpg"),
           ("colorMode", .obj [("respectPrefersColorScheme", .bool true)]),
           ("navbar", .obj
             [("title", .str "Flutter Interview Prep"),
              ("logo", .obj [("alt", .str "Flutter Interview Prep Logo"),
                             ("src", .str "img/logo.svg")]),
              ("items", .arr mainNavbarItems)]),
           ("footer", .obj
             [("style", .str "dark"),
              ("links", .arr
                [.obj [("title", .str "Docs"),
                       ("items", .arr mainFooterDocsItems)],
                 .obj [("title", .str "Community"),
                       ("items", .arr mainFooterCommunityItems)]]),
              ("copyright", .str (mainCopyright year))]),
           ("prism", .obj [("theme", .str "prismThemes.github"),
                           ("darkTheme", .str "prismThemes.dracula")]),
           ("metadata", .arr
             [.obj [("name", .str "description"),
                    ("content", .str "Prepare for your Flutter interviews with curated questions and answers.")],
              .obj [("name", .str "keywords"),
                    ("content", .str "Flutter, Dart, interview questions, SDE, coding prep")]])])]

/-! ## `unnamed/part_004` (a second version of the site configuration)

This version imports `links` from `./src/utils/links` and is otherwise a
fully static object: it reads neither the environment nor the date. -/

/-- `themeConfig.navbar.items` of `part_004`; the GitHub href is
`links.githubLink + '/flutter-interview-prep'`. -/
def part004NavbarItems : List ConfigValue :=
  [.obj [("href", .str (githubLink ++ "/flutter-interview-prep")),
         ("label", .str "GitHub"),
         ("position", .str "right")],
   .obj [("href", .str gmailLink),
         ("label", .str "Contact"),
         ("position", .str "right")]]

/-- The configuration object of `unnamed/part_004`. -/
def part004Config : ConfigValue :=
  .obj [("title", .str "Flutter Interview Prep"),
        ("tagline", .str "Curated Flutter interview questions and answers."),
        ("favicon", .str "img/flutter/icon_flutter.png"),
        ("future", .obj [("v4", .bool true)]),
        ("url", .str hostedCoreURL),
        ("baseUrl", .str "/"),
        ("organizationName", .str "narayann7"),
        ("projectName", .str "flutter-interview-prep"),
        ("deploymentBranch", .str "main"),
        ("trailingSlash", .bool false),
        ("onBrokenLinks", .str "warn"),
        ("onBrokenMarkdownLinks", .str "warn"),
        ("i18n", .obj [("defaultLocale", .str "en"),
                       ("locales", .arr [.str "en"])]),
        ("presets", mainPresets),
        ("themeConfig", .obj
          [("image", .str "img/social-card.jpg"),
           ("colorMode", .obj [("respectPrefersColorScheme", .bool true),
                               ("defaultMode", .str "dark")]),
           ("navbar", .obj
             [("title", .str "Flutter Interview Prep"),
              ("logo", .obj [("alt", .str "Flutter Interview Prep Logo"),
                             ("src", .str "img/flutter/icon_flutter.svg")]),
              ("items", .arr part004NavbarItems)]),
           ("prism", .obj [("theme", .str "prismThemes.oceanicNext"),
                           ("darkTheme", .str "prismThemes.oceanicNext"),
                           ("additionalLanguages", .arr [.str "dart", .str "java", .str "graphql"])]),
           ("metadata", .arr
             [.obj [("name", .str "description"),
                    ("content", .str "Prepare for your Flutter interviews with curated questions, answers, and topic guides. Built for SDE2 aspirants and Flutter developers.")],
              .obj [("name", .str "keywords"),
                    ("content", .str "Flutter, Dart, interview questions, SDE, coding prep, DSA, software developer, mobile app, technical interview, flutter web")],
              .obj [("name", .str "author"), ("content", .str "Narayann Dev")],
              .obj [("name", .str "robots"), ("content", .str "index, follow")],
              .obj [("property", .str "og:title"),
                    ("content", .str "Flutter Interview Prep Guide")],
              .obj [("property", .str "og:description"),
                    ("content", .str "Curated Flutter interview questions and detailed answers for aspiring SDE2 and mobile developers.")],
              .obj [("property", .str "og:type"), ("content", .str "website")],
              .obj [("property", .str "og:url"), ("content", .str hostedCoreURL)]])])]

/-! ## `unnamed/part_005` (a third, earlier version of the site configuration)

This version declares local constants `coreDomainUrl` (unused) and
`baseGitHubUrl`, sets `onBrokenLinks: 'throw'`, does not set
`onBrokenMarkdownLinks` at all, and its footer copyright interpolates the
current year. Its `editUrl` is a function value, embedded separately. -/

def coreDomainUrl : String := "https://narayann.dev"
def baseGitHubUrl : String := "https://github.com/narayann7/"

/-- The `editUrl` callback of `part_005`:
`({ versionDocsDirPath, docPath }) => ...`. -/
def part005EditUrl (versionDocsDirPath docPath : String) : String :=
  baseGitHubUrl ++ "flutter-interview-prep/blob/main/" ++ versionDocsDirPath ++ "/" ++ docPath

/-- The footer copyright template string of `part_005`. -/
def part005Copyright (year : Nat) : String :=
  "Copyright © " ++ toString year ++ " Narayan N. Built with Docusaurus."

/-- `themeConfig.navbar.items` of `part_005`; the href is the template
string `` `${baseGitHubUrl}flutter-interview-prep` ``. -/
def part005NavbarItems : List ConfigValue :=
  [.obj [("href", .str (baseGitHubUrl ++ "flutter-interview-prep")),
         ("label", .str "GitHub"),
         ("position", .str "right")]]

/-- Items of the `Docs` group of `part_005`'s `themeConfig.footer.links`. -/
def part005FooterDocsItems : List ConfigValue :=
  [.obj [("label", .str "Intro"), ("to", .str "/docs/intro")]]

/-- Items of the `Community` group of `part_005`'s `themeConfig.footer.links`. -/
def part005FooterCommunityItems : List ConfigValue :=
  [.obj [("label", .str "Stack Overflow"),
         ("href", .str "https://stackoverflow.com/questions/tagged/docusaurus")],
   .obj [("label", .str "Discord"),
         ("href", .str "https://discordapp.com/invite/docusaurus")],
   .obj [("label", .str "X"),
         ("href", .str "https://x.com/docusaurus")]]

/-- The configuration object of `unnamed/part_005`, as a function of the
current year. -/
def part005Config (year : Nat) : ConfigValue :=
  .obj [("title", .str "Flutter Interview Prep"),
        ("tagline", .str "Prepare for your Flutter interviews with curated questions and answers."),
        ("favicon", .str "img/favicon.ico"),
        ("future", .obj [("v4", .bool true)]),
        ("url", .str "https://narayann7.github.io"),
        ("baseUrl", .str "/flutter-interview-prep/"),
        ("organizationName", .str "narayann7"),
        ("projectName", .str "flutter-interview-prep"),
        ("onBrokenLinks", .str "throw"),
        ("i18n", .obj [("defaultLocale", .str "en"),
                       ("locales", .arr [.str "en"])]),
        ("presets", .arr [.arr [.str "classic",
          .obj [("docs", .obj [("sidebarPath", .str "./sidebars.ts"),
                               ("editUrl", .funcLeaf)]),
                ("theme", .obj [("customCss", .str "./src/css/custom.css")])]]]),
        ("themeConfig", .obj
          [("image", .str "img/docusaurus-social-card.jpg"),
           ("colorMode", .obj [("respectPrefersColorScheme", .bool true)]),
           ("navbar", .obj
             [("title", .str "Flutter Interview Prep"),
              ("logo", .obj [("alt", .str "Flutter Interview Prep Logo"),
                             ("src", .str "img/logo.svg")]),
              ("items", .arr part005NavbarItems)]),
           ("footer", .obj
             [("style", .str "dark"),
              ("links", .arr
                [.obj [("title", .str "Docs"),
                       ("items", .arr part005FooterDocsItems)],
                 .obj [("title", .str "Community"),
                       ("items", .arr part005FooterCommunityItems)]]),
              ("copyright", .str (part005Copyright year))]),
           ("prism", .obj [("theme", .str "prismThemes.github"),
                           ("darkTheme", .str "prismThemes.dracula")])])]

/-! ## Sidebar descriptors: `sidebars.ts` and `unnamed/part_003` -/

/-- A top-level entry of a Docusaurus sidebar as used in this repository:
either `{ type: 'doc', id, label }` or
`{ type: 'category', label, items: [...document ids...] }`. -/
inductive SidebarEntry where
  | doc (id : String) (label : String)
  | category (label : String) (items : List String)
deriving DecidableEq

/-- `true` iff the entry is a `category` entry. -/
def SidebarEntry.isCategory : SidebarEntry → Bool
  | .doc _ _ => false
  | .category _ _ => true

/-- The document identifiers an entry references: the `id` of a `doc`
entry, the `items` of a `category` entry. -/
def SidebarEntry.docIds : SidebarEntry → List String
  | .doc id _ => [id]
  | .category _ items => items

/-- All document identifiers referenced by a sidebar, in order. -/
def sidebarDocIds (entries : List SidebarEntry) : List String :=
  (entries.map SidebarEntry.docIds).flatten

/-- `tutorialSidebar` of the current `sidebars.ts`.  All categories after
`Fundamentals` are commented out in the source. -/
def tutorialSidebar : List SidebarEntry :=
  [.doc "welcome" "Welcome",
   .category "Fundamentals"
     ["fundamentals/widgets_overview",
      "fundamentals/stateless_vs_stateful",
      "fundamentals/buildcontext_and_lifecycle",
      "fundamentals/keys_in_flutter",
      "fundamentals/container_const_explained"]]

/-- The object exported by `sidebars.ts`: its only key is `tutorialSidebar`. -/
def sidebars : List (String × List SidebarEntry) :=
  [("tutorialSidebar", tutorialSidebar)]

/-- `tutorialSidebar` of `unnamed/part_003`, an earlier version of the
sidebar descriptor with nine active categories. -/
def part003TutorialSidebar : List SidebarEntry :=
  [.doc "welcome" "Welcome",
   .category "Fundamentals"
     ["fundamentals/widgets_overview",
      "fundamentals/stateless_vs_stateful",
      "fundamentals/buildcontext_and_lifecycle",
      "fundamentals/keys_in_flutter",
      "fundamentals/container_const_explained"],
   .category "Layouts & Rendering"
     ["layouts_and_rendering/repaint_boundary",
      "layouts_and_rendering/flexible_and_flex",
      "layouts_and_rendering/custom_paint_and_canvas",
      "layouts_and_rendering/performance_optimization_tips"],
   .category "Dart Language Concepts"
     ["dart_language_concepts/mixins_in_dart",
      "dart_language_concepts/iterables_vs_lists",
      "dart_language_concepts/async_asyncstar_syncstar",
      "dart_language_concepts/throttle_vs_debounce"],
   .category "Architecture & Engine"
     ["architecture_and_engine/flutter_engine_internals",
      "architecture_and_engine/tree_shaking",
      "architecture_and_engine/build_modes",
      "architecture_and_engine/state_in_flutter",
      "architecture_and_engine/flutter_trees_and_rendering_pipeline"],
   .category "Packages & Plugins"
     ["packages_and_plugins/difference_packages_plugins",
      "packages_and_plugins/dependency_management_best_practices"],
   .category "State Management"
     ["state_management/stateful_widget_lifecycle",
      "state_management/provider_and_inheritedwidget",
      "state_management/bloc_and_riverpod_intro",
      "state_management/comparison_of_state_management"],
   .category "Streams & Async Programming"
     ["streams_and_async/streams_basics",
      "streams_and_async/stream_transformers",
      "streams_and_async/streambuilder_widget",
      "streams_and_async/best_practices_for_streams"],
   .category "Links & Navigation"
     ["links_and_navigation/deep_linking",
      "links_and_navigation/dynamic_linking",
      "links_and_navigation/navigation_and_routes"],
   .category "Advanced Topics"
     ["advanced_topics/custom_widget_examples",
      "advanced_topics/animation_with_custompaint",
      "advanced_topics/app_lifecycle_states",
      "advanced_topics/flutter_performance_insights"]]

/-- The object exported by `unnamed/part_003`. -/
def part003Sidebars : List (String × List SidebarEntry) :=
  [("tutorialSidebar", part003TutorialSidebar)]

/-! ## The content-file corpus

A front-matter block is an ordered list of field/value pairs as written
between the `---` delimiters at the top of a Markdown document.  Several
source files bundle more than one document version; each document's
front-matter block is recorded separately, tagged with the file it
occurs in. -/

/-- One YAML front-matter block of a content file. -/
structure FrontMatter where
  file : String
  fields : List (String × String)
deriving DecidableEq

/-- The field names a block declares, in order. -/
def FrontMatter.fieldNames (fm : FrontMatter) : List String :=
  fm.fields.map Prod.fst

/-- `true` iff the block declares the given field. -/
def FrontMatter.declares (fm : FrontMatter) (k : String) : Bool :=
  fm.fieldNames.contains k

/-- The value of the block's `id` field, when declared. -/
def FrontMatter.idValue (fm : FrontMatter) : Option String :=
  (fm.fields.find? (fun kv => kv.fst == "id")).map Prod.snd

/-- First block of `docs/welcome.md` (first document version). -/
def welcomeIntroFM : FrontMatter :=
  ⟨"docs/welcome.md",
   [("id", "intro"), ("title", "🚀 Welcome"), ("sidebar_position", "1")]⟩

/-- Front-matter of the second document version in `docs/welcome.md`. -/
def welcomeWelcomeFM : FrontMatter :=
  ⟨"docs/welcome.md",
   [("id", "welcome"), ("title", "Welcome"), ("sidebar_position", "1")]⟩

/-- Front-matter of `unnamed/part_000` (the BuildContext & lifecycle doc). -/
def buildcontextFM : FrontMatter :=
  ⟨"unnamed/part_000",
   [("id", "buildcontext_and_lifecycle"),
    ("title", "BuildContext and Lifecycle"),
    ("sidebar_label", "BuildContext and Lifecycle"),
    ("sidebar_position", "1"),
    ("tags", "[Intermediate, Widgets]"),
    ("description", "Explanation of BuildContext and the widget lifecycle in Flutter."),
    ("keywords", "[Flutter, BuildContext, Lifecycle]")]⟩

/-- Front-matter of the second document bundled in
`docs/cs/languages/java/String, StringBuffer and StringBuilder.md`
(the Flutter trees & rendering pipeline doc). -/
def flutterTreesFM : FrontMatter :=
  ⟨"docs/cs/languages/java/String, StringBuffer and StringBuilder.md",
   [("id", "flutter_trees_and_rendering_pipeline"),
    ("title", "Flutter Trees and Rendering Pipeline"),
    ("sidebar_label", "Flutter Trees and Rendering"),
    ("sidebar_position", "2"),
    ("tags", "[Advanced, Rendering, Architecture, Important]"),
    ("description", "A deep dive into Flutter's Widget, Element, Render, and Layer trees and how they interact within the rendering pipeline."),
    ("keywords", "[Flutter, Widget Tree, Render Tree, Element Tree, Layer Tree, Rendering, Architecture]")]⟩

/-- Every content file of the corpus with the front-matter blocks it
declares (files whose documents have no front-matter carry `[]`). -/
def corpusFiles : List (String × List FrontMatter) :=
  [("docs/welcome.md", [welcomeIntroFM, welcomeWelcomeFM]),
   ("docs/cs/backend/graphql.md", []),
   ("docs/cs/languages/java/String, StringBuffer and StringBuilder.md", [flutterTreesFM]),
   ("docs/cs/mobile apps/android.md", []),
   ("docs/cs/nextjs/keypoints.md", []),
   ("docs/cs/system design/concepts/soild.md", []),
   ("unnamed/part_000", [buildcontextFM]),
   ("unnamed/part_001", []),
   ("unnamed/part_002", [])]

/-- All front-matter blocks declared anywhere in the corpus. -/
def corpusFrontMatters : List FrontMatter :=
  (corpusFiles.map Prod.snd).flatten

/-- All document identifiers declared by front-matter blocks of the corpus. -/
def corpusDeclaredIds : List String :=
  corpusFrontMatters.filterMap FrontMatter.idValue

/-- A sidebar document identifier resolves iff some content file of the
corpus declares exactly it as its front-matter `id`. -/
def resolvesInCorpus (docId : String) : Bool :=
  corpusFrontMatters.any (fun fm => fm.idValue == some docId)

/-- The front-matter fields the specification declares for content files
(modelled from the spec's words: "optional front-matter (id, title,
sidebar position, tags, description, keywords)"). -/
def specDeclaredFrontMatterFields : List String :=
  ["id", "title", "sidebar_position", "tags", "description", "keywords"]

/-- `true` iff the first list of characters begins with the second. -/
def charListStartsWith : List Char → List Char → Bool
  | _, [] => true
  | [], _ :: _ => false
  | c :: cs, p :: ps => c == p && charListStartsWith cs ps

/-- `true` iff the string begins with the given anchor string. -/
def strStartsWith (s anchor : String) : Bool :=
  charListStartsWith s.data anchor.data

/-- A link string is absolute iff it begins with `https://` or `mailto:`. -/
def isAbsoluteLink (s : String) : Bool :=
  strStartsWith s "https://" || strStartsWith s "mailto:"

/-- A navbar or footer item is link-well-formed iff it carries an absolute
`href`, or a site-relative `to` path beginning with `/`. -/
def navItemLinkOk (v : ConfigValue) : Bool :=
  match v.lookup "href", v.lookup "to" with
  | some (.str h), none => isAbsoluteLink h
  | none, some (.str t) => strStartsWith t "/"
  | _, _ => false

/-- Every navbar or footer item occurring in any of the three site
configuration descriptors. -/
def allNavAndFooterItems : List ConfigValue :=
  mainNavbarItems ++ mainFooterDocsItems ++ mainFooterCommunityItems ++
  part004NavbarItems ++ part005NavbarItems ++
  part005FooterDocsItems ++ part005FooterCommunityItems

/-! ## Claims -/

/-- C1 (counterexample): the claim "for every document identifier listed
as an item of `tutorialSidebar` there exists a content file whose declared
front-matter id equals that identifier" fails: the Fundamentals item
`fundamentals/widgets_overview` is listed, yet no front-matter block of
the corpus declares that id. -/
theorem C1_counterexample :
    "fundamentals/widgets_overview" ∈ sidebarDocIds tutorialSidebar ∧
    ¬ ∃ fm ∈ corpusFrontMatters, fm.idValue = some "fundamentals/widgets_overview" := by
  decide

/-- C1 (amended): among the document identifiers listed in
`tutorialSidebar`, exactly the first entry's id `welcome` resolves to a
content file whose declared front-matter id equals it; no Fundamentals
item does (broken references are merely warned about, per the
configuration). -/
theorem C1_sidebar_resolution :
    (sidebarDocIds tutorialSidebar).filter resolvesInCorpus = ["welcome"] := by
  decide

/-- C2 (counterexample): the claim "in every configuration descriptor in
the repository, `onBrokenLinks` and `onBrokenMarkdownLinks` equal `'warn'`"
fails on `unnamed/part_005`, which sets `onBrokenLinks: 'throw'` and does
not set `onBrokenMarkdownLinks` at all. -/
theorem C2_counterexample :
    (part005Config 2025).lookup "onBrokenLinks" = some (.str "throw") ∧
    (part005Config 2025).lookup "onBrokenLinks" ≠ some (.str "warn") ∧
    (part005Config 2025).lookup "onBrokenMarkdownLinks" = none := by
  refine ⟨rfl, ?_, rfl⟩
  intro h
  rw [show (part005Config 2025).lookup "onBrokenLinks"
        = some (ConfigValue.str "throw") from rfl] at h
  simp only [Option.some.injEq, ConfigValue.str.injEq] at h
  exact absurd h (by decide)

/-- C2 (amended): the current configuration `docusaurus.config.ts` and
the `part_004` version set both `onBrokenLinks` and
`onBrokenMarkdownLinks` to the non-fatal `'warn'`; the older `part_005`
version instead sets `onBrokenLinks` to the fatal `'throw'` and omits
`onBrokenMarkdownLinks`. -/
theorem C2_broken_link_modes : ∀ (nodeEnv : String) (year yr : Nat),
    ((mainConfig nodeEnv year).lookup "onBrokenLinks" = some (.str "warn") ∧
     (mainConfig nodeEnv year).lookup "onBrokenMarkdownLinks" = some (.str "warn")) ∧
    (part004Config.lookup "onBrokenLinks" = some (.str "warn") ∧
     part004Config.lookup "onBrokenMarkdownLinks" = some (.str "warn")) ∧
    ((part005Config yr).lookup "onBrokenLinks" = some (.str "throw") ∧
     (part005Config yr).lookup "onBrokenMarkdownLinks" = none) := by
  intro nodeEnv year yr
  exact ⟨⟨rfl, rfl⟩, ⟨rfl, rfl⟩, ⟨rfl, rfl⟩⟩

/-- C3: every front-matter block declared by a content file of the corpus
has both an `id` and a `title` field, and the declared ids are pairwise
distinct across the whole corpus. -/
theorem C3_front_matter_ids :
    corpusFrontMatters.all (fun fm => fm.declares "id" && fm.declares "title") = true ∧
    corpusDeclaredIds.Nodup := by
  decide

/-- C4 (counterexample): the claim that evaluating the configuration
object is deterministic regardless of environment fails: under
`NODE_ENV = 'development'` the `baseUrl` is `/`, otherwise it is
`/flutter-interview-prep/`, so two evaluations of the descriptor differ. -/
theorem C4_counterexample :
    (mainConfig "production" 2025).lookup "baseUrl"
      = some (.str "/flutter-interview-prep/") ∧
    (mainConfig "development" 2025).lookup "baseUrl" = some (.str "/") ∧
    mainConfig "production" 2025 ≠ mainConfig "development" 2025 := by
  refine ⟨rfl, rfl, ?_⟩
  intro h
  have hb : (mainConfig "production" 2025).lookup "baseUrl"
      = (mainConfig "development" 2025).lookup "baseUrl" := by rw [h]
  rw [show (mainConfig "production" 2025).lookup "baseUrl"
        = some (ConfigValue.str "/flutter-interview-prep/") from rfl,
      show (mainConfig "development" 2025).lookup "baseUrl"
        = some (ConfigValue.str "/") from rfl] at hb
  simp only [Option.some.injEq, ConfigValue.str.injEq] at hb
  exact absurd hb (by decide)

/-- C4 (amended): the configuration descriptor is static up to exactly two
inputs — whether `NODE_ENV` is `'development'` (which decides `baseUrl`)
and the current year (which appears in the footer copyright): any two
evaluations that agree on those two inputs produce identical
configuration objects. -/
theorem C4_conditional_determinism (e₁ e₂ : String) (y₁ y₂ : Nat)
    (henv : isDev e₁ = isDev e₂) (hyear : y₁ = y₂) :
    mainConfig e₁ y₁ = mainConfig e₂ y₂ := by
  subst hyear
  simp [mainConfig, mainBaseUrl, henv]

/-- C4 (witness): two concrete evaluations, under `NODE_ENV` values
`production` and `test` in the same year, yield the same configuration. -/
theorem C4_witness :
    isDev "production" = isDev "test" ∧
    mainConfig "production" 2025 = mainConfig "test" 2025 :=
  ⟨by decide, C4_conditional_determinism "production" "test" 2025 2025 (by decide) rfl⟩

/-- C5 (counterexample): the claim "every top-level entry of the sidebar
is a category carrying a string label and an ordered list of
document-identifier items" fails: the first entry of `tutorialSidebar` is
a doc entry (`type: 'doc'`, id `welcome`), not a category. -/
theorem C5_counterexample :
    tutorialSidebar.head? = some (.doc "welcome" "Welcome") ∧
    ¬ ∀ entry ∈ tutorialSidebar, entry.isCategory = true := by
  decide

/-- C5 (amended): in both versions of the sidebar descriptor, every
top-level entry is either a doc entry or a category carrying a string
label and an ordered list of document-identifier items; the first entry
is the `welcome` doc entry and every entry after it is a category. -/
theorem C5_sidebar_shape :
    (tutorialSidebar.head? = some (.doc "welcome" "Welcome") ∧
     tutorialSidebar.tail.all SidebarEntry.isCategory = true) ∧
    (part003TutorialSidebar.head? = some (.doc "welcome" "Welcome") ∧
     part003TutorialSidebar.tail.all SidebarEntry.isCategory = true) := by
  decide

/-- C6: each of the three site configuration descriptors is well-formed
structured data in which no object layer, at any nesting level, declares
a duplicate key — for every environment and year the current
configuration may be evaluated under. -/
theorem C6_no_duplicate_keys : ∀ (nodeEnv : String) (year yr : Nat),
    (mainConfig nodeEnv year).noDupKeys = true ∧
    part004Config.noDupKeys = true ∧
    (part005Config yr).noDupKeys = true := by
  intro nodeEnv year yr
  exact ⟨rfl, rfl, rfl⟩

/-- C7 (counterexample): the claim that front-matter blocks use only
fields from the spec's set (id, title, sidebar position, tags,
description, keywords) fails: the block of `unnamed/part_000` declares
`sidebar_label`, which is outside that set. -/
theorem C7_counterexample :
    buildcontextFM ∈ corpusFrontMatters ∧
    buildcontextFM.declares "sidebar_label" = true ∧
    "sidebar_label" ∉ specDeclaredFrontMatterFields := by
  decide

/-- C7 (amended): every front-matter block of the corpus uses only fields
from the spec's declared set extended with `sidebar_label`:
id, title, sidebar_label, sidebar_position, tags, description, keywords. -/
theorem C7_front_matter_fields :
    corpusFrontMatters.all
      (fun fm => fm.fieldNames.all
        (fun k => (specDeclaredFrontMatterFields ++ ["sidebar_label"]).contains k)) = true := by
  decide

/-- C8: all three versions of the site configuration descriptor agree on
the identifying fields: `title` is `Flutter Interview Prep`,
`organizationName` is `narayann7` and `projectName` is
`flutter-interview-prep`, whatever environment and year the
parameterised versions are evaluated under. -/
theorem C8_identity_fields : ∀ (nodeEnv : String) (year yr : Nat),
    ((mainConfig nodeEnv year).lookup "title" = some (.str "Flutter Interview Prep") ∧
     part004Config.lookup "title" = some (.str "Flutter Interview Prep") ∧
     (part005Config yr).lookup "title" = some (.str "Flutter Interview Prep")) ∧
    ((mainConfig nodeEnv year).lookup "organizationName" = some (.str "narayann7") ∧
     part004Config.lookup "organizationName" = some (.str "narayann7") ∧
     (part005Config yr).lookup "organizationName" = some (.str "narayann7")) ∧
    ((mainConfig nodeEnv year).lookup "projectName" = some (.str "flutter-interview-prep") ∧
     part004Config.lookup "projectName" = some (.str "flutter-interview-prep") ∧
     (part005Config yr).lookup "projectName" = some (.str "flutter-interview-prep")) := by
  intro nodeEnv year yr
  exact ⟨⟨rfl, rfl, rfl⟩, ⟨rfl, rfl, rfl⟩, ⟨rfl, rfl, rfl⟩⟩

/-- C9: every link constant exported by `src/utils/links.ts` is an
absolute URL beginning with `https://` or `mailto:`, and every navbar or
footer item of the three site configuration descriptors carries either
such an absolute `href` or a site-relative `to` path beginning with `/`. -/
theorem C9_links_absolute :
    links.all (fun kv => isAbsoluteLink kv.snd) = true ∧
    allNavAndFooterItems.all navItemLinkOk = true := by
  decide

/-- C10: in both versions of the sidebar descriptor the exported object
has exactly one key, `tutorialSidebar`, and its first entry is the doc
entry with id `welcome` and label `Welcome`. -/
theorem C10_welcome_first :
    (sidebars.map Prod.fst = ["tutorialSidebar"] ∧
     part003Sidebars.map Prod.fst = ["tutorialSidebar"]) ∧
    tutorialSidebar.head? = some (.doc "welcome" "Welcome") ∧
    part003TutorialSidebar.head? = some (.doc "welcome" "Welcome") := by
  decide
